import Mathlib

set_option linter.unusedVariables false

/-! Shallow embedding of the Schedule Timing Engine of the
Time-Manipulation-App repository (src/src/TimeManipulation.jsx).

The source file holds two complete App variants, separated by a document
separator near line 680.  Variant 1 is the first App (activeSchedule memo,
handleFinishTask, handleScheduleSubmit); variant 2 is the second App
(MainScheduler with currentTask, handleFinished, handleOvertimeAdvance,
AddScheduleForm).

Embedding conventions:
- a wall-clock "HH:MM" string is embedded as an hour/minute pair (the
  source always parses it with parseInt on the two colon-separated parts);
- the current instant (the currentTime Date) is embedded as seconds since
  local midnight; variant 1 works at minute granularity via
  getHours()*60 + getMinutes(), which is seconds/60, and variant 2
  compares Date values directly, which at the whole-second ticks of the
  app is comparison of seconds;
- localStorage keys notified-<id> are embedded as a list of block ids;
- Firestore writes are modelled as succeeding, except the schedule
  deletion of variant 1, which is modelled through the list of names
  actually imported from firebase/firestore (lines 7-11 of the source). -/

structure Wall where
  hour : Nat
  minute : Nat
deriving DecidableEq, Repr

def Wall.toMinutes (t : Wall) : Nat := t.hour * 60 + t.minute

abbrev Instant := Nat

/-- Embeds currentTime.getHours() * 60 + currentTime.getMinutes(). -/
def nowMinutesOf (now : Instant) : Nat := now / 60

/-! Variant 1: constants and the activeSchedule memo (source lines 185-263). -/

def OVERTIME_GRACE_MINUTES : Nat := 15

def OVERTIME_TRIGGER_MINUTES : Nat := 20

structure SchedV1 where
  id : Nat
  name : String
  startTime : Wall
  endTime : Wall
deriving DecidableEq, Repr

inductive AttStatus where
  | RUNNING
  | ON_TIME_WINDOW
  | OVERDUE
deriving DecidableEq, Repr

structure AttV1 where
  sched : SchedV1
  status : AttStatus
  minutesPastDue : Option Nat
deriving DecidableEq, Repr

/-- The predicate of the running-task find (source lines 208-212). -/
def runningCheck (nowM : Nat) (s : SchedV1) : Bool :=
  decide (nowM ≥ s.startTime.toMinutes) && decide (nowM < s.endTime.toMinutes)

/-- The outer guard of the overdue-task find callback (source line 225). -/
def windowCheck (nowM : Nat) (s : SchedV1) : Bool :=
  decide (nowM ≥ s.endTime.toMinutes) &&
  decide (nowM < s.endTime.toMinutes + OVERTIME_TRIGGER_MINUTES)

/-- The object returned by the overdue-task find callback
(source lines 249-255): status and minutesPastDue. -/
def overdueAtt (nowM : Nat) (s : SchedV1) : AttV1 :=
  { sched := s
    status :=
      if nowM ≤ s.endTime.toMinutes + OVERTIME_GRACE_MINUTES then .ON_TIME_WINDOW
      else .OVERDUE
    minutesPastDue := some (nowM - s.endTime.toMinutes) }

/-- Everything the activeSchedule memo produces: the returned attention
value plus the state it touches while evaluating (the showNotification
React state, the localStorage notified markers, the id emitted this
evaluation if a notification fired, and the ids for which the
auto-advance branch requested handleFinishTask). -/
structure ScanOut where
  result : Option AttV1
  showNotification : Option Nat
  notified : List Nat
  emitted : Option Nat
  autoFinish : List Nat
deriving Repr

/-- The overdue-task find of the activeSchedule memo (source lines
219-258), threading the side effects of the callback through the list in
order.  The nested branch at lines 229-232 (which would call
handleFinishTask and make the callback return undefined so that the find
continues) is kept exactly as guarded in the source.  The nextSchedule
lookup at lines 234-236 only feeds the notification message text and is
not represented. -/
def overdueScan (nowM : Nat) (dbReady : Bool) (l : List SchedV1)
    (sn : Option Nat) (fl : List Nat) : ScanOut :=
  match l with
  | [] =>
    { result := none, showNotification := sn, notified := fl,
      emitted := none, autoFinish := [] }
  | s :: rest =>
    let endM := s.endTime.toMinutes
    let autoAdvM := endM + OVERTIME_TRIGGER_MINUTES
    if nowM ≥ endM ∧ nowM < autoAdvM then
      if nowM ≥ autoAdvM ∧ dbReady = true then
        let r := overdueScan nowM dbReady rest sn fl
        { r with autoFinish := s.id :: r.autoFinish }
      else
        if nowM = endM ∧ sn = none ∧ s.id ∉ fl then
          { result := some (overdueAtt nowM s), showNotification := some s.id,
            notified := s.id :: fl, emitted := some s.id, autoFinish := [] }
        else
          { result := some (overdueAtt nowM s), showNotification := sn,
            notified := fl, emitted := none, autoFinish := [] }
    else
      overdueScan nowM dbReady rest sn fl

/-- The activeSchedule memo (source lines 204-263): first the running-task
find with early return as RUNNING, otherwise the overdue scan. -/
def activeSchedule (now : Instant) (dbReady : Bool) (schedules : List SchedV1)
    (sn : Option Nat) (fl : List Nat) : ScanOut :=
  let nowM := nowMinutesOf now
  match schedules.find? (runningCheck nowM) with
  | some c =>
    { result := some { sched := c, status := .RUNNING, minutesPastDue := none }
      showNotification := sn, notified := fl, emitted := none, autoFinish := [] }
  | none => overdueScan nowM dbReady schedules sn fl

structure V1State where
  schedules : List SchedV1
  dbReady : Bool
  showNotification : Option Nat
  notified : List Nat
deriving Repr

/-- One 1 Hz tick of variant 1: the memo recomputes and its notification
side effects land in the state. -/
def tickV1 (now : Instant) (st : V1State) : V1State :=
  let r := activeSchedule now st.dbReady st.schedules st.showNotification st.notified
  { st with showNotification := r.showNotification, notified := r.notified }

/-- The reminder emitted by one tick of variant 1, if any. -/
def tickEmitV1 (now : Instant) (st : V1State) : Option Nat :=
  (activeSchedule now st.dbReady st.schedules st.showNotification st.notified).emitted

/-- Runs a list of ticks in order, collecting every emitted reminder id. -/
def runTicksV1 (ticks : List Instant) (st : V1State) : V1State × List Nat :=
  match ticks with
  | [] => (st, [])
  | t :: rest =>
    let e := tickEmitV1 t st
    let st1 := tickV1 t st
    let r := runTicksV1 rest st1
    (r.1, (match e with | some i => [i] | none => []) ++ r.2)

/-- A process restart of variant 1: React state (showNotification) is
lost, localStorage (the notified markers) and the Firestore-backed
schedule list persist. -/
def restartV1 (st : V1State) : V1State :=
  { st with showNotification := none }

/-- The names imported from firebase/firestore in variant 1
(source lines 7-11): deleteDoc is not among them. -/
def firestoreImports : List String :=
  ["getFirestore", "doc", "getDoc", "setDoc", "onSnapshot", "collection",
   "query", "where", "addDoc", "getDocs", "updateDoc", "Timestamp",
   "setLogLevel"]

structure HistV1 where
  name : String
  scheduledStartTime : Wall
  scheduledEndTime : Wall
  finishedAtMinutes : Nat
  status : String
  durationMinutes : Int
deriving DecidableEq, Repr

structure V1Full where
  schedules : List SchedV1
  history : List HistV1
  showNotification : Option Nat
  notified : List Nat
  errors : List String
deriving Repr

/-- handleFinishTask of variant 1 (source lines 320-357).  Step one
appends the history record and clears the notification plus the
localStorage marker; step two deletes the schedule document with
deleteDoc, a name that resolves only if it was imported from
firebase/firestore, otherwise the call raises a ReferenceError that the
surrounding try/catch logs, leaving the schedule set untouched. -/
def handleFinishTask (now : Instant) (taskId : Nat) (statusOverride : Option String)
    (st : V1Full) : V1Full :=
  match st.schedules.find? (fun s => s.id == taskId) with
  | none => st
  | some task =>
    let finishedMinutes := nowMinutesOf now
    let endMinutes := task.endTime.toMinutes
    let isOvertime :=
      statusOverride = some "OVERTIME" ∨
        finishedMinutes > endMinutes + OVERTIME_GRACE_MINUTES
    let rec0 : HistV1 :=
      { name := task.name
        scheduledStartTime := task.startTime
        scheduledEndTime := task.endTime
        finishedAtMinutes := finishedMinutes
        status := if isOvertime then "OVERTIME" else "ON TIME"
        durationMinutes := (finishedMinutes : Int) - (task.startTime.toMinutes : Int) }
    let st1 : V1Full :=
      { st with
        history := st.history ++ [rec0]
        showNotification := none
        notified := st.notified.erase taskId }
    if firestoreImports.contains "deleteDoc" then
      { st1 with schedules := st1.schedules.filter (fun s => s.id != taskId) }
    else
      { st1 with errors := st1.errors ++ ["Error deleting schedule:"] }

structure ScheduleFormV1 where
  name : String
  startTime : Wall
  endTime : Wall
deriving Repr

/-- handleScheduleSubmit of variant 1 (source lines 300-317): guarded only
by db and userId being ready, it adds the submitted block with addDoc.
No comparison of startTime and endTime is performed. -/
def handleScheduleSubmit (form : ScheduleFormV1) (newId : Nat) (ready : Bool)
    (schedules : List SchedV1) : List SchedV1 :=
  if ready then
    schedules ++ [{ id := newId, name := form.name,
                    startTime := form.startTime, endTime := form.endTime }]
  else schedules

/-! Variant 2: the second App (source lines 680-1515). -/

/-- The timeStringToDate helper (source lines 723-728): a Date on today
at the given hour and minute with seconds zero, embedded as seconds
since midnight. -/
def timeStringToDate (t : Wall) : Instant := (t.hour * 60 + t.minute) * 60

structure TaskV2 where
  id : Nat
  activity : String
  startTime : Wall
  endTime : Wall
  status : String
deriving DecidableEq, Repr

/-- The activeTasks memo (source line 1043). -/
def activeTasks (tasks : List TaskV2) : List TaskV2 :=
  tasks.filter (fun t => !(t.status == "completed") && !(t.status == "overtimed"))

/-- The callback of the currentTask find (source lines 1044-1049). -/
def currentTaskPred (now : Instant) (t : TaskV2) : Bool :=
  decide (now ≥ timeStringToDate t.startTime) &&
  decide (now < timeStringToDate t.endTime + 20 * 60) &&
  !(t.status == "completed") && !(t.status == "overtimed")

/-- The currentTask computation of MainScheduler (source lines 1044-1049). -/
def currentTask (tasks : List TaskV2) (now : Instant) : Option TaskV2 :=
  (activeTasks tasks).find? (currentTaskPred now)

structure HistV2 where
  activity : String
  scheduledStart : Wall
  scheduledEnd : Wall
  actualEnd : Nat
  status : String
deriving DecidableEq, Repr

structure NotifV2 where
  isActive : Bool
  currentTaskId : Option Nat
deriving DecidableEq, Repr

structure V2State where
  tasks : List TaskV2
  history : List HistV2
  notification : NotifV2
deriving Repr

/-- logActivityToHistory (source lines 1104-1118): appends a record whose
actualEnd is the given instant formatted to HH:mm, embedded as minutes
since midnight. -/
def logActivityToHistory (task : TaskV2) (actualEnd : Instant) (status : String)
    (st : V2State) : V2State :=
  { st with
    history := st.history ++
      [{ activity := task.activity, scheduledStart := task.startTime,
         scheduledEnd := task.endTime, actualEnd := actualEnd / 60,
         status := status }] }

/-- updateTaskStatus (source lines 1091-1101): rewrites the task list with
the matching id set to the new status. -/
def updateTaskStatus (taskId : Nat) (newStatus : String) (st : V2State) : V2State :=
  { st with
    tasks := st.tasks.map (fun t =>
      if t.id == taskId then { t with status := newStatus } else t) }

/-- handleFinished (source lines 1121-1137): clears the notification,
then, if a current task exists, classifies the finish against
endTime + 15 minutes, appends the history record, and sets the task
status to completed. -/
def handleFinished (now : Instant) (st : V2State) : V2State :=
  let st1 : V2State := { st with notification := { isActive := false, currentTaskId := none } }
  match currentTask st.tasks now with
  | none => st1
  | some task =>
    let scheduledEnd := timeStringToDate task.endTime
    let overtimeTrigger := scheduledEnd + 15 * 60
    let status := if now > overtimeTrigger then "overtimed" else "on-time"
    updateTaskStatus task.id "completed" (logActivityToHistory task now status st1)

/-- handleOvertimeAdvance (source lines 1140-1151): clears the
notification, then, if a current task exists, logs it as overtimed with
actualEnd = scheduledEnd + 20 minutes and sets its status to overtimed. -/
def handleOvertimeAdvance (scheduledEnd : Instant) (now : Instant) (st : V2State) : V2State :=
  let st1 : V2State := { st with notification := { isActive := false, currentTaskId := none } }
  match currentTask st.tasks now with
  | none => st1
  | some task =>
    let autoAdvanceTime := scheduledEnd + 20 * 60
    updateTaskStatus task.id "overtimed"
      (logActivityToHistory task autoAdvanceTime "overtimed" st1)

/-- The core timing useEffect of MainScheduler (source lines 1063-1088):
returns early without a current task or with an active notification,
fires the reminder during the window from scheduledEnd to
scheduledEnd + 15 minutes, and calls handleOvertimeAdvance once
now reaches scheduledEnd + 20 minutes. -/
def tickEffect (now : Instant) (st : V2State) : V2State :=
  match currentTask st.tasks now with
  | none => st
  | some task =>
    if st.notification.isActive then st
    else
      let scheduledEnd := timeStringToDate task.endTime
      let overtimeTrigger := scheduledEnd + 15 * 60
      let autoAdvanceTrigger := scheduledEnd + 20 * 60
      let st1 : V2State :=
        if scheduledEnd ≤ now ∧ now < overtimeTrigger then
          { st with notification := { isActive := true, currentTaskId := some task.id } }
        else st
      if now ≥ autoAdvanceTrigger then handleOvertimeAdvance scheduledEnd now st1
      else st1

/-- Whether one tick of the variant 2 effect fires the reminder. -/
def tickEmitsV2 (now : Instant) (st : V2State) : Bool :=
  match currentTask st.tasks now with
  | none => false
  | some task =>
    if st.notification.isActive then false
    else
      decide (timeStringToDate task.endTime ≤ now ∧
              now < timeStringToDate task.endTime + 15 * 60)

/-- A process restart of variant 2: the notificationState React state is
lost; tasks and history persist in Firestore. -/
def restartV2 (st : V2State) : V2State :=
  { st with notification := { isActive := false, currentTaskId := none } }

structure AddFormV2 where
  activity : String
  startTime : Wall
  endTime : Wall
deriving Repr

/-- handleSubmit of AddScheduleForm (source lines 913-952): rejects an
empty activity, rejects end not after start comparing the two Dates
built by timeStringToDate, otherwise appends the new pending task and
re-sorts the list by startTime (localeCompare on zero-padded HH:MM
strings is comparison of minutes since midnight). -/
def handleSubmit (form : AddFormV2) (newId : Nat) (tasks : List TaskV2) :
    Except String (List TaskV2) :=
  if form.activity = "" then Except.error "Please fill in all fields."
  else
    let start := timeStringToDate form.startTime
    let stop := timeStringToDate form.endTime
    if stop ≤ start then Except.error "End time must be after start time."
    else
      let newSchedule : TaskV2 :=
        { id := newId, activity := form.activity, startTime := form.startTime,
          endTime := form.endTime, status := "pending" }
      Except.ok
        ((tasks ++ [newSchedule]).mergeSort
          (fun a b => decide (a.startTime.toMinutes ≤ b.startTime.toMinutes)))

/-! Helper lemmas about the variant 1 scan. -/

/-- The attention value produced by the overdue scan is the first block in
list order inside the window from endTime to endTime + 20 minutes; the
nested auto-advance branch is unreachable because its condition
contradicts the enclosing window guard. -/
theorem overdueScan_result (nowM : Nat) (db : Bool) (l : List SchedV1)
    (sn : Option Nat) (fl : List Nat) :
    (overdueScan nowM db l sn fl).result =
      (l.find? (windowCheck nowM)).map (overdueAtt nowM) := by
  induction l generalizing sn fl with
  | nil => rfl
  | cons s rest ih =>
    by_cases h : nowM ≥ s.endTime.toMinutes ∧
        nowM < s.endTime.toMinutes + OVERTIME_TRIGGER_MINUTES
    · have hdead : ¬(nowM ≥ s.endTime.toMinutes + OVERTIME_TRIGGER_MINUTES ∧ db = true) := by
        intro hc
        exact absurd hc.1 (by omega)
      have hw : windowCheck nowM s = true := by
        simp only [windowCheck, Bool.and_eq_true, decide_eq_true_eq]
        exact h
      rw [overdueScan, if_pos h, if_neg hdead, List.find?_cons_of_pos _ hw]
      by_cases hn : nowM = s.endTime.toMinutes ∧ sn = none ∧ s.id ∉ fl
      · rw [if_pos hn]
        rfl
      · rw [if_neg hn]
        rfl
    · have hw : ¬ windowCheck nowM s = true := by
        simp only [windowCheck, Bool.and_eq_true, decide_eq_true_eq]
        exact h
      rw [overdueScan, if_neg h, List.find?_cons_of_neg _ hw]
      exact ih sn fl

/-- The unreachable auto-advance branch never requests a finish. -/
theorem overdueScan_autoFinish (nowM : Nat) (db : Bool) (l : List SchedV1)
    (sn : Option Nat) (fl : List Nat) :
    (overdueScan nowM db l sn fl).autoFinish = [] := by
  induction l generalizing sn fl with
  | nil => rfl
  | cons s rest ih =>
    by_cases h : nowM ≥ s.endTime.toMinutes ∧
        nowM < s.endTime.toMinutes + OVERTIME_TRIGGER_MINUTES
    · have hdead : ¬(nowM ≥ s.endTime.toMinutes + OVERTIME_TRIGGER_MINUTES ∧ db = true) := by
        intro hc
        exact absurd hc.1 (by omega)
      rw [overdueScan, if_pos h, if_neg hdead]
      by_cases hn : nowM = s.endTime.toMinutes ∧ sn = none ∧ s.id ∉ fl
      · rw [if_pos hn]
      · rw [if_neg hn]
    · rw [overdueScan, if_neg h]
      exact ih sn fl

/-- The notified markers after a scan are the input markers plus the
emitted id, if any. -/
theorem overdueScan_notified (nowM : Nat) (db : Bool) (l : List SchedV1)
    (sn : Option Nat) (fl : List Nat) :
    (overdueScan nowM db l sn fl).notified =
      (match (overdueScan nowM db l sn fl).emitted with
       | some i => i :: fl
       | none => fl) := by
  induction l generalizing sn fl with
  | nil => rfl
  | cons s rest ih =>
    by_cases h : nowM ≥ s.endTime.toMinutes ∧
        nowM < s.endTime.toMinutes + OVERTIME_TRIGGER_MINUTES
    · have hdead : ¬(nowM ≥ s.endTime.toMinutes + OVERTIME_TRIGGER_MINUTES ∧ db = true) := by
        intro hc
        exact absurd hc.1 (by omega)
      rw [overdueScan, if_pos h, if_neg hdead]
      by_cases hn : nowM = s.endTime.toMinutes ∧ sn = none ∧ s.id ∉ fl
      · rw [if_pos hn]
      · rw [if_neg hn]
    · rw [overdueScan, if_neg h]
      exact ih sn fl

/-- An id emitted by a scan was not yet among the notified markers: the
localStorage check at line 240 is consulted before the emission. -/
theorem overdueScan_emitted_fresh (nowM : Nat) (db : Bool) (l : List SchedV1)
    (sn : Option Nat) (fl : List Nat) :
    (match (overdueScan nowM db l sn fl).emitted with
     | some i => fl.contains i
     | none => false) = false := by
  induction l generalizing sn fl with
  | nil => rfl
  | cons s rest ih =>
    by_cases h : nowM ≥ s.endTime.toMinutes ∧
        nowM < s.endTime.toMinutes + OVERTIME_TRIGGER_MINUTES
    · have hdead : ¬(nowM ≥ s.endTime.toMinutes + OVERTIME_TRIGGER_MINUTES ∧ db = true) := by
        intro hc
        exact absurd hc.1 (by omega)
      rw [overdueScan, if_pos h, if_neg hdead]
      by_cases hn : nowM = s.endTime.toMinutes ∧ sn = none ∧ s.id ∉ fl
      · rw [if_pos hn]
        simpa using hn.2.2
      · rw [if_neg hn]
    · rw [overdueScan, if_neg h]
      exact ih sn fl

/-- The attention value of the activeSchedule memo: a running block found
first, otherwise the first block inside the overdue window. -/
theorem activeSchedule_result (now : Instant) (db : Bool) (l : List SchedV1)
    (sn : Option Nat) (fl : List Nat) :
    (activeSchedule now db l sn fl).result =
      (match l.find? (runningCheck (nowMinutesOf now)) with
       | some c => some { sched := c, status := .RUNNING, minutesPastDue := none }
       | none =>
         (l.find? (windowCheck (nowMinutesOf now))).map (overdueAtt (nowMinutesOf now))) := by
  rw [activeSchedule]
  cases hr : l.find? (runningCheck (nowMinutesOf now)) with
  | some c => rfl
  | none => exact overdueScan_result _ _ _ _ _

theorem activeSchedule_autoFinish (now : Instant) (db : Bool) (l : List SchedV1)
    (sn : Option Nat) (fl : List Nat) :
    (activeSchedule now db l sn fl).autoFinish = [] := by
  rw [activeSchedule]
  cases hr : l.find? (runningCheck (nowMinutesOf now)) with
  | some c => rfl
  | none => exact overdueScan_autoFinish _ _ _ _ _

theorem activeSchedule_notified (now : Instant) (db : Bool) (l : List SchedV1)
    (sn : Option Nat) (fl : List Nat) :
    (activeSchedule now db l sn fl).notified =
      (match (activeSchedule now db l sn fl).emitted with
       | some i => i :: fl
       | none => fl) := by
  rw [activeSchedule]
  cases hr : l.find? (runningCheck (nowMinutesOf now)) with
  | some c => rfl
  | none => exact overdueScan_notified _ _ _ _ _

theorem activeSchedule_emitted_fresh (now : Instant) (db : Bool) (l : List SchedV1)
    (sn : Option Nat) (fl : List Nat) :
    (match (activeSchedule now db l sn fl).emitted with
     | some i => fl.contains i
     | none => false) = false := by
  rw [activeSchedule]
  cases hr : l.find? (runningCheck (nowMinutesOf now)) with
  | some c => rfl
  | none => exact overdueScan_emitted_fresh _ _ _ _ _

/-! Helper lemmas about variant 2. -/

/-- A current task always lies strictly before its auto-advance trigger:
the very find that selects it requires now < endTime + 20 minutes. -/
theorem currentTask_lt_trigger (tasks : List TaskV2) (now : Instant) (t : TaskV2)
    (h : currentTask tasks now = some t) :
    now < timeStringToDate t.endTime + 20 * 60 := by
  have hp := List.find?_some h
  simp only [currentTaskPred, Bool.and_eq_true, decide_eq_true_eq] at hp
  exact hp.1.1.2

/-- Rewriting statuses with updateTaskStatus keeps every task id. -/
theorem updStatus_map_id (l : List TaskV2) (i : Nat) (ns : String) :
    (l.map (fun t => if t.id == i then { t with status := ns } else t)).map
        (fun t => t.id) =
      l.map (fun t => t.id) := by
  induction l with
  | nil => rfl
  | cons t rest ih =>
    simp only [List.map_cons, ih]
    by_cases h : (t.id == i) = true
    · rw [if_pos h]
    · rw [if_neg h]

/-- After updateTaskStatus every stored copy with the matching id carries
the new status. -/
theorem updStatus_filter (l : List TaskV2) (i : Nat) (ns : String) :
    ((l.map (fun t => if t.id == i then { t with status := ns } else t)).filter
        (fun x => x.id == i)).map (fun x => x.status) =
      (l.filter (fun x => x.id == i)).map (fun _ => ns) := by
  induction l with
  | nil => rfl
  | cons t rest ih =>
    simp only [List.map_cons]
    by_cases h : (t.id == i) = true
    · rw [if_pos h, List.filter_cons, List.filter_cons]
      have h2 : (({ t with status := ns } : TaskV2).id == i) = true := h
      rw [if_pos h2, if_pos h]
      simp only [List.map_cons]
      rw [ih]
    · rw [if_neg h, List.filter_cons, List.filter_cons, if_neg h, if_neg h]
      exact ih

/-- The redundant terminal-status re-check inside the currentTask find
callback makes the activeTasks pre-filter irrelevant: the find over the
filtered list equals the find over the full task list. -/
theorem currentTask_eq_find (tasks : List TaskV2) (now : Instant) :
    currentTask tasks now = tasks.find? (currentTaskPred now) := by
  induction tasks with
  | nil => rfl
  | cons t rest ih =>
    rw [currentTask, activeTasks, List.filter_cons]
    by_cases hp : (!(t.status == "completed") && !(t.status == "overtimed")) = true
    · rw [if_pos hp]
      cases hq : currentTaskPred now t with
      | true =>
        rw [List.find?_cons_of_pos _ hq, List.find?_cons_of_pos _ hq]
      | false =>
        rw [List.find?_cons_of_neg _ (by simp [hq]),
            List.find?_cons_of_neg _ (by simp [hq])]
        exact ih
    · rw [if_neg hp]
      have hq : currentTaskPred now t = false := by
        cases hc : t.status == "completed" <;> cases ho : t.status == "overtimed"
        · simp [hc, ho] at hp
        · simp [currentTaskPred, ho]
        · simp [currentTaskPred, hc]
        · simp [currentTaskPred, hc]
      rw [List.find?_cons_of_neg _ (by simp [hq])]
      exact ih

/-! Concrete fixtures used by the claim theorems. -/

def workBlock : SchedV1 :=
  { id := 1, name := "Work", startTime := ⟨9, 0⟩, endTime := ⟨10, 0⟩ }

def blockB : SchedV1 :=
  { id := 1, name := "B", startTime := ⟨8, 0⟩, endTime := ⟨9, 0⟩ }

def blockC : SchedV1 :=
  { id := 2, name := "C", startTime := ⟨9, 0⟩, endTime := ⟨9, 30⟩ }

def workTaskActive : TaskV2 :=
  { id := 1, activity := "Work", startTime := ⟨9, 0⟩, endTime := ⟨10, 0⟩,
    status := "active" }

def workTaskPending : TaskV2 :=
  { id := 1, activity := "Work", startTime := ⟨9, 0⟩, endTime := ⟨10, 0⟩,
    status := "pending" }

def taskB : TaskV2 :=
  { id := 1, activity := "B", startTime := ⟨8, 0⟩, endTime := ⟨9, 0⟩,
    status := "pending" }

def taskA : TaskV2 :=
  { id := 2, activity := "A", startTime := ⟨9, 0⟩, endTime := ⟨10, 0⟩,
    status := "pending" }

def stateActive : V2State :=
  { tasks := [workTaskActive], history := [], notification := ⟨false, none⟩ }

def statePending : V2State :=
  { tasks := [workTaskPending], history := [], notification := ⟨false, none⟩ }

def finishStateV1 : V1Full :=
  { schedules := [workBlock], history := [], showNotification := none,
    notified := [1], errors := [] }

def tickStateV1 : V1State :=
  { schedules := [workBlock], dbReady := true, showNotification := none,
    notified := [] }

/-! Claim theorems. -/

/-- C1: the claim states that a block with no manual finish is resolved
exactly once when now reaches endTime + 20 minutes, with an overtime
history record whose actualEnd is endTime + 20 minutes, and status set to
overtimed.  The code never performs this resolution: in variant 2 the
tick effect never changes the task list or the history because the task
stops being the current task at exactly the instant the auto-advance
guard would become true, and in variant 1 the auto-advance branch of the
activeSchedule memo is nested under a guard that contradicts it, so no
finish is ever requested.  Concretely, at 10:20:00 the pending block of
statePending keeps status pending and the history stays empty. -/
theorem c1_auto_resolve_never_fires :
    (∀ now st, (tickEffect now st).tasks = st.tasks ∧
      (tickEffect now st).history = st.history) ∧
    (∀ now db l sn fl, (activeSchedule now db l sn fl).autoFinish = []) ∧
    ((tickEffect 37200 statePending).tasks.map (fun t => t.status) = ["pending"] ∧
      (tickEffect 37200 statePending).history = []) := by
  refine ⟨?_, ?_, by decide⟩
  · intro now st
    cases hct : currentTask st.tasks now with
    | none => simp [tickEffect, hct]
    | some task =>
      have hlt := currentTask_lt_trigger st.tasks now task hct
      have hng : ¬ now ≥ timeStringToDate task.endTime + 20 * 60 := Nat.not_le.mpr hlt
      cases hact : st.notification.isActive with
      | true => simp [tickEffect, hct, hact]
      | false =>
        simp only [tickEffect, hct, hact, Bool.false_eq_true, if_false]
        rw [if_neg hng]
        by_cases hwin : timeStringToDate task.endTime ≤ now ∧
            now < timeStringToDate task.endTime + 15 * 60
        · rw [if_pos hwin]
          exact ⟨rfl, rfl⟩
        · rw [if_neg hwin]
          exact ⟨rfl, rfl⟩
  · exact fun now db l sn fl => activeSchedule_autoFinish now db l sn fl

/-- C4, counterexample: evaluating the attention query is not
side-effect-free.  With a block ending 10:00, the single evaluation at
10:00:00 from a clean state writes the per-block dedupe marker and sets
the notification. -/
theorem c4_counterexample :
    (activeSchedule 36000 true [workBlock] none []).notified = [1] ∧
    (activeSchedule 36000 true [workBlock] none []).showNotification = some 1 ∧
    ([1] : List Nat) ≠ [] := by decide

/-- C4, amended: the attention value returned by the activeSchedule memo
is a function of now and the block set alone, unaffected by the
notification flag and the dedupe markers, and evaluating the memo never
touches the stored blocks or the history (the auto-finish branch is
unreachable); but the evaluation is not side-effect-free, because at a
tick where the minute of now equals a block endTime it may set the
dedupe marker and the notification. -/
theorem c4_amended :
    (∀ now db l sn fl sn2 fl2,
      (activeSchedule now db l sn fl).result =
        (activeSchedule now db l sn2 fl2).result) ∧
    (∀ now db l sn fl, (activeSchedule now db l sn fl).autoFinish = []) := by
  constructor
  · intro now db l sn fl sn2 fl2
    rw [activeSchedule_result, activeSchedule_result]
  · exact fun now db l sn fl => activeSchedule_autoFinish now db l sn fl

/-- C5, counterexample: with B ending 09:00 and C ending 09:30, both past
due at 09:40, the engine returns C (id 2), not B (id 1) as the claim
states: B is more than 20 minutes past its end and has left the
attention window entirely. -/
theorem c5_counterexample :
    ((activeSchedule 34800 true [blockB, blockC] none []).result.map
      (fun a => a.sched.id)) = some 2 ∧ (2 : Nat) ≠ 1 := by decide

/-- C5, amended: when no block is running, the attended block is the
first block in list order whose endTime ≤ now < endTime + 20 minutes,
not the one with the earliest endTime; a block 20 or more minutes past
its end no longer qualifies.  At 09:40, B (end 09:00) fails the window
check, C (end 09:30) passes it, and C is returned. -/
theorem c5_amended :
    (∀ now db l sn fl, l.find? (runningCheck (nowMinutesOf now)) = none →
      (activeSchedule now db l sn fl).result =
        (l.find? (windowCheck (nowMinutesOf now))).map
          (overdueAtt (nowMinutesOf now))) ∧
    windowCheck 580 blockB = false ∧
    windowCheck 580 blockC = true ∧
    (activeSchedule 34800 true [blockB, blockC] none []).result =
      some (overdueAtt 580 blockC) := by
  refine ⟨?_, by decide, by decide, by decide⟩
  intro now db l sn fl hr
  rw [activeSchedule_result, hr]

/-- C5, witness for the amended selection rule at the 09:40 scenario. -/
theorem c5_amended_witness :
    (activeSchedule 34800 true [blockB, blockC] none []).result =
      (([blockB, blockC].find? (windowCheck (nowMinutesOf 34800))).map
        (overdueAtt (nowMinutesOf 34800))) :=
  c5_amended.1 34800 true [blockB, blockC] none [] (by decide)

/-- C6, counterexample: in variant 2, with task A running (09:00-10:00 at
09:05:00) and task B in its grace window (ended 09:00), the currentTask
find returns B (id 1), the earlier-starting overdue task, not the
running task A (id 2) as the claim states. -/
theorem c6_counterexample :
    (timeStringToDate taskA.startTime ≤ 32700 ∧
      32700 < timeStringToDate taskA.endTime) ∧
    (timeStringToDate taskB.endTime ≤ 32700 ∧
      32700 < timeStringToDate taskB.endTime + 15 * 60) ∧
    ((currentTask [taskB, taskA] 32700).map (fun t => t.id)) = some 1 ∧
    taskB.id ≠ taskA.id := by decide

/-- C6, amended: in variant 1 a running block does take priority (the
running find comes first and its hit is returned as RUNNING), and with
no running and no in-window block the attention is empty; in variant 2,
however, the attended task is simply the first non-terminal task in list
order with startTime ≤ now < endTime + 20 minutes, so an earlier
overdue task is returned in preference to a running one. -/
theorem c6_amended :
    (∀ now db l sn fl c, l.find? (runningCheck (nowMinutesOf now)) = some c →
      (activeSchedule now db l sn fl).result =
        some { sched := c, status := .RUNNING, minutesPastDue := none }) ∧
    (∀ now db l sn fl, l.find? (runningCheck (nowMinutesOf now)) = none →
      l.find? (windowCheck (nowMinutesOf now)) = none →
      (activeSchedule now db l sn fl).result = none) ∧
    (∀ tasks now, currentTask tasks now = tasks.find? (currentTaskPred now)) := by
  refine ⟨?_, ?_, fun tasks now => currentTask_eq_find tasks now⟩
  · intro now db l sn fl c hr
    rw [activeSchedule_result, hr]
  · intro now db l sn fl hr hw
    rw [activeSchedule_result, hr, hw]
    rfl

/-- C6, witness: the running-priority case at 09:30 and the
empty-attention case at 08:00 for a 09:00-10:00 block. -/
theorem c6_amended_witness :
    (activeSchedule 34200 true [workBlock] none []).result =
      some { sched := workBlock, status := .RUNNING, minutesPastDue := none } ∧
    (activeSchedule 28800 true [workBlock] none []).result = none :=
  ⟨c6_amended.1 34200 true [workBlock] none [] workBlock (by decide),
   c6_amended.2.1 28800 true [workBlock] none [] (by decide) (by decide)⟩

def stateNotifActive : V2State :=
  { tasks := [workTaskPending], history := [], notification := ⟨true, some 1⟩ }

/-- C2, counterexample: variant 1 compares finish times at minute
granularity, so a finish of the 09:00-10:00 block at 10:15:01, an
instant strictly later than endTime + 15 minutes, is recorded ON TIME,
not overtime as the claim states. -/
theorem c2_counterexample :
    36901 > timeStringToDate workBlock.endTime + 15 * 60 ∧
    ((handleFinishTask 36901 1 none finishStateV1).history.map
      (fun r => r.status)) = ["ON TIME"] ∧
    "ON TIME" ≠ "OVERTIME" := by decide

/-- C2, amended: in variant 2 the recorded outcome of a manual finish is
overtimed exactly when now is strictly later than endTime + 15 minutes,
at second precision, and the actualEnd of the record is the minute of now; so
10:14:59 gives on-time and 10:15:01 gives overtimed there.  In variant 1
the comparison is at minute granularity: the outcome is OVERTIME exactly
when an OVERTIME override was passed or the minute of now is strictly
later than endTime + 15 minutes, so 10:15:01 is recorded ON TIME and
10:16:00 OVERTIME. -/
theorem c2_amended :
    (∀ now st t, currentTask st.tasks now = some t →
      ∃ r, (handleFinished now st).history = st.history ++ [r] ∧
        (r.status = "overtimed" ↔ now > timeStringToDate t.endTime + 15 * 60) ∧
        r.actualEnd = now / 60) ∧
    (∀ now taskId so st task,
      st.schedules.find? (fun s => s.id == taskId) = some task →
      ∃ r, (handleFinishTask now taskId so st).history = st.history ++ [r] ∧
        (r.status = "OVERTIME" ↔
          (so = some "OVERTIME" ∨
            nowMinutesOf now > task.endTime.toMinutes + OVERTIME_GRACE_MINUTES)) ∧
        r.finishedAtMinutes = nowMinutesOf now) ∧
    ((handleFinished 36899 stateActive).history.map (fun r => r.status) =
      ["on-time"]) ∧
    ((handleFinished 36901 stateActive).history.map (fun r => r.status) =
      ["overtimed"]) ∧
    ((handleFinishTask 36960 1 none finishStateV1).history.map
      (fun r => r.status) = ["OVERTIME"]) := by
  refine ⟨?_, ?_, by decide, by decide, by decide⟩
  · intro now st t hct
    simp only [handleFinished, hct]
    refine ⟨_, rfl, ?_, rfl⟩
    by_cases h : now > timeStringToDate t.endTime + 15 * 60
    · refine iff_of_true ?_ h
      show (if now > timeStringToDate t.endTime + 15 * 60 then "overtimed"
            else "on-time") = "overtimed"
      rw [if_pos h]
    · refine iff_of_false ?_ h
      show ¬ ((if now > timeStringToDate t.endTime + 15 * 60 then "overtimed"
               else "on-time") = "overtimed")
      rw [if_neg h]
      decide
  · intro now taskId so st task hfd
    simp only [handleFinishTask, hfd]
    refine ⟨_, rfl, ?_, rfl⟩
    by_cases h : so = some "OVERTIME" ∨
        nowMinutesOf now > task.endTime.toMinutes + OVERTIME_GRACE_MINUTES
    · refine iff_of_true ?_ h
      show (if (so = some "OVERTIME" ∨
            nowMinutesOf now > task.endTime.toMinutes + OVERTIME_GRACE_MINUTES)
            then "OVERTIME" else "ON TIME") = "OVERTIME"
      rw [if_pos h]
    · refine iff_of_false ?_ h
      show ¬ ((if (so = some "OVERTIME" ∨
            nowMinutesOf now > task.endTime.toMinutes + OVERTIME_GRACE_MINUTES)
            then "OVERTIME" else "ON TIME") = "OVERTIME")
      rw [if_neg h]
      decide

/-- C3, counterexample: a manual finish while overdue (10:16:00 for a
block ending 10:00) logs the history record as overtimed but sets the
persisted task status to completed, not overtimed as the claim states. -/
theorem c3_counterexample :
    36960 > timeStringToDate workTaskActive.endTime + 15 * 60 ∧
    ((handleFinished 36960 stateActive).history.map (fun r => r.status) =
      ["overtimed"]) ∧
    ((handleFinished 36960 stateActive).tasks.map (fun t => t.status) =
      ["completed"]) ∧
    "completed" ≠ "overtimed" := by decide

/-- C2, witness: the amended outcome rule applied at the 10:15:01 finish
in variant 2 and at the 10:16:00 finish in variant 1. -/
theorem c2_amended_witness :
    (∃ r, (handleFinished 36901 stateActive).history = stateActive.history ++ [r] ∧
      (r.status = "overtimed" ↔
        36901 > timeStringToDate workTaskActive.endTime + 15 * 60) ∧
      r.actualEnd = 36901 / 60) ∧
    (∃ r, (handleFinishTask 36960 1 none finishStateV1).history =
        finishStateV1.history ++ [r] ∧
      (r.status = "OVERTIME" ↔
        ((none : Option String) = some "OVERTIME" ∨
          nowMinutesOf 36960 > workBlock.endTime.toMinutes + OVERTIME_GRACE_MINUTES)) ∧
      r.finishedAtMinutes = nowMinutesOf 36960) :=
  ⟨c2_amended.1 36901 stateActive workTaskActive (by decide),
   c2_amended.2.1 36960 1 none finishStateV1 workBlock (by decide)⟩

/-- C3, amended: a finish never removes a task from the stored list (all
ids are preserved by both handlers); a manual finish sets the persisted
status of the finished task to completed regardless of the on-time or
overtime classification, which only reaches the history record; the
status overtimed is assigned only by the auto-advance handler. -/
theorem c3_amended :
    (∀ now st, (handleFinished now st).tasks.map (fun t => t.id) =
      st.tasks.map (fun t => t.id)) ∧
    (∀ e now st, (handleOvertimeAdvance e now st).tasks.map (fun t => t.id) =
      st.tasks.map (fun t => t.id)) ∧
    (∀ now st t, currentTask st.tasks now = some t →
      ((handleFinished now st).tasks.filter (fun x => x.id == t.id)).map
          (fun x => x.status) =
        (st.tasks.filter (fun x => x.id == t.id)).map (fun _ => "completed")) ∧
    (∀ e now st t, currentTask st.tasks now = some t →
      ((handleOvertimeAdvance e now st).tasks.filter (fun x => x.id == t.id)).map
          (fun x => x.status) =
        (st.tasks.filter (fun x => x.id == t.id)).map (fun _ => "overtimed")) := by
  refine ⟨?_, ?_, ?_, ?_⟩
  · intro now st
    cases hct : currentTask st.tasks now with
    | none => simp [handleFinished, hct]
    | some t =>
      simp only [handleFinished, hct]
      exact updStatus_map_id st.tasks t.id "completed"
  · intro e now st
    cases hct : currentTask st.tasks now with
    | none => simp [handleOvertimeAdvance, hct]
    | some t =>
      simp only [handleOvertimeAdvance, hct]
      exact updStatus_map_id st.tasks t.id "overtimed"
  · intro now st t hct
    simp only [handleFinished, hct]
    exact updStatus_filter st.tasks t.id "completed"
  · intro e now st t hct
    simp only [handleOvertimeAdvance, hct]
    exact updStatus_filter st.tasks t.id "overtimed"

/-- C3, witness: the amended status rule at the 10:16:00 overdue manual
finish. -/
theorem c3_amended_witness :
    (((handleFinished 36960 stateActive).tasks.filter
        (fun x => x.id == workTaskActive.id)).map (fun x => x.status) =
      (stateActive.tasks.filter (fun x => x.id == workTaskActive.id)).map
        (fun _ => "completed")) ∧
    (((handleOvertimeAdvance (timeStringToDate workTaskPending.endTime) 36960
          statePending).tasks.filter
        (fun x => x.id == workTaskPending.id)).map (fun x => x.status) =
      (statePending.tasks.filter (fun x => x.id == workTaskPending.id)).map
        (fun _ => "overtimed")) :=
  ⟨c3_amended.2.2.1 36960 stateActive workTaskActive (by decide),
   c3_amended.2.2.2 (timeStringToDate workTaskPending.endTime) 36960 statePending
     workTaskPending (by decide)⟩

/-- C7, counterexample: in variant 2 the reminder guard is only the
in-process notification state; it fires at 10:00:00, and after a process
restart during the grace window it fires again at 10:05:00, so the
reminder is not emitted exactly once. -/
theorem c7_counterexample :
    tickEmitsV2 36000 statePending = true ∧
    tickEmitsV2 36300 (restartV2 (tickEffect 36000 statePending)) = true := by
  decide

/-- C7, amended: in variant 1, over ticks at 09:59:59, 10:00:00,
10:00:01 and 10:05:00 for a 09:00-10:00 block, the reminder fires
exactly once, at 10:00:00; in general a tick adds the emitted id to the
persisted dedupe markers, never emits for an id already marked, and a
restart keeps the markers, so a block is never re-notified once marked.
In variant 2 the guard is only the ephemeral notification state and a
restart inside the grace window re-fires (see the counterexample). -/
theorem c7_amended :
    (runTicksV1 [35999, 36000, 36001, 36300] tickStateV1).2 = [1] ∧
    (runTicksV1 [35999] tickStateV1).2 = [] ∧
    (runTicksV1 [35999, 36000] tickStateV1).2 = [1] ∧
    (∀ now st, (tickV1 now st).notified =
      (match tickEmitV1 now st with
       | some i => i :: st.notified
       | none => st.notified)) ∧
    (∀ now st, (match tickEmitV1 now st with
       | some i => st.notified.contains i
       | none => false) = false) ∧
    (∀ st, (restartV1 st).notified = st.notified) := by
  refine ⟨by decide, by decide, by decide, ?_, ?_, fun st => rfl⟩
  · intro now st
    exact activeSchedule_notified now st.dbReady st.schedules st.showNotification
      st.notified
  · intro now st
    exact activeSchedule_emitted_fresh now st.dbReady st.schedules st.showNotification
      st.notified

/-- C8, counterexample: variant 1 accepts a block whose endTime (09:00)
is before its startTime (10:00): the submission handler adds it to the
schedule set without any ordering validation. -/
theorem c8_counterexample :
    (⟨9, 0⟩ : Wall).toMinutes < (⟨10, 0⟩ : Wall).toMinutes ∧
    handleScheduleSubmit
        { name := "Bad", startTime := ⟨10, 0⟩, endTime := ⟨9, 0⟩ } 7 true [] =
      [{ id := 7, name := "Bad", startTime := ⟨10, 0⟩, endTime := ⟨9, 0⟩ }] ∧
    ([{ id := 7, name := "Bad", startTime := ⟨10, 0⟩, endTime := ⟨9, 0⟩ }] :
      List SchedV1) ≠ [] := by decide

/-- C8, amended: in variant 2 a submission whose endTime is not strictly
after its startTime is rejected with an error and the task list is
unchanged, while a valid submission appends the new pending task and
keeps the existing ones; variant 1 performs no ordering validation and
appends the submitted block unconditionally. -/
theorem c8_amended :
    (∀ form newId tasks, form.activity ≠ "" →
      timeStringToDate form.endTime ≤ timeStringToDate form.startTime →
      handleSubmit form newId tasks =
        Except.error "End time must be after start time.") ∧
    (∀ form newId tasks, form.activity ≠ "" →
      timeStringToDate form.startTime < timeStringToDate form.endTime →
      ∃ l, handleSubmit form newId tasks = Except.ok l ∧
        ({ id := newId, activity := form.activity, startTime := form.startTime,
           endTime := form.endTime, status := "pending" } : TaskV2) ∈ l ∧
        (∀ t ∈ tasks, t ∈ l) ∧
        l.length = tasks.length + 1) ∧
    (∀ form newId l, handleScheduleSubmit form newId true l =
      l ++ [{ id := newId, name := form.name, startTime := form.startTime,
              endTime := form.endTime }]) := by
  refine ⟨?_, ?_, fun form newId l => rfl⟩
  · intro form newId tasks ha hle
    simp only [handleSubmit]
    rw [if_neg ha, if_pos hle]
  · intro form newId tasks ha hlt
    have hn : ¬ timeStringToDate form.endTime ≤ timeStringToDate form.startTime :=
      fun hle => absurd hlt (Nat.not_lt.mpr hle)
    simp only [handleSubmit]
    rw [if_neg ha, if_neg hn]
    refine ⟨_, rfl, ?_, ?_, ?_⟩
    · rw [List.mem_mergeSort, List.mem_append]
      exact Or.inr (List.mem_singleton.mpr rfl)
    · intro t ht
      rw [List.mem_mergeSort, List.mem_append]
      exact Or.inl ht
    · rw [List.length_mergeSort, List.length_append]
      rfl

/-- C8, witness: the rejection at an inverted form and the acceptance at
a valid one. -/
theorem c8_amended_witness :
    handleSubmit { activity := "Bad", startTime := ⟨10, 0⟩, endTime := ⟨9, 0⟩ } 7 [] =
      Except.error "End time must be after start time." ∧
    (∃ l, handleSubmit
        { activity := "Good", startTime := ⟨9, 0⟩, endTime := ⟨10, 0⟩ } 7 [] =
        Except.ok l ∧
      ({ id := 7, activity := "Good", startTime := ⟨9, 0⟩, endTime := ⟨10, 0⟩,
         status := "pending" } : TaskV2) ∈ l ∧
      (∀ t ∈ ([] : List TaskV2), t ∈ l) ∧
      l.length = ([] : List TaskV2).length + 1) :=
  ⟨c8_amended.1 { activity := "Bad", startTime := ⟨10, 0⟩, endTime := ⟨9, 0⟩ } 7 []
      (by decide) (by decide),
   c8_amended.2.1 { activity := "Good", startTime := ⟨9, 0⟩, endTime := ⟨10, 0⟩ } 7 []
      (by decide) (by decide)⟩

/-- C9: deleteDoc is never imported from firebase/firestore in variant 1,
so the schedule-removal step of every finish raises a caught and logged
ReferenceError: the schedule set is left unchanged by handleFinishTask,
while the history record and the logged deletion error are appended
exactly when the task was found. -/
theorem c9_deleteDoc_missing :
    firestoreImports.contains "deleteDoc" = false ∧
    (∀ now taskId so st, (handleFinishTask now taskId so st).schedules =
      st.schedules) ∧
    (∀ now taskId so st, (handleFinishTask now taskId so st).history.length =
      st.history.length +
        (if (st.schedules.find? (fun s => s.id == taskId)).isSome then 1 else 0)) ∧
    (∀ now taskId so st, (handleFinishTask now taskId so st).errors.length =
      st.errors.length +
        (if (st.schedules.find? (fun s => s.id == taskId)).isSome then 1 else 0)) := by
  have hc : firestoreImports.contains "deleteDoc" = false := by decide
  have hm : "deleteDoc" ∉ firestoreImports := by decide
  refine ⟨hc, ?_, ?_, ?_⟩
  · intro now taskId so st
    cases hfd : st.schedules.find? (fun s => s.id == taskId) with
    | none => simp [handleFinishTask, hfd]
    | some task => simp [handleFinishTask, hfd, hm]
  · intro now taskId so st
    cases hfd : st.schedules.find? (fun s => s.id == taskId) with
    | none => simp [handleFinishTask, hfd]
    | some task => simp [handleFinishTask, hfd, hm]
  · intro now taskId so st
    cases hfd : st.schedules.find? (fun s => s.id == taskId) with
    | none => simp [handleFinishTask, hfd]
    | some task => simp [handleFinishTask, hfd, hm]

/-- C10, counterexample: dismissing the reminder at 10:20:00, once the
09:00-10:00 block has left the currentTask window, runs handleFinished
with no current task: the popup is cleared but no history record is
appended and the block keeps status pending, left unresolved. -/
theorem c10_counterexample :
    (handleFinished 37200 stateNotifActive).history = [] ∧
    ((handleFinished 37200 stateNotifActive).tasks.map (fun t => t.status)) =
      ["pending"] ∧
    (handleFinished 37200 stateNotifActive).notification.isActive = false ∧
    "pending" ≠ "completed" := by decide

/-- C10, amended: the only dismissal control of the reminder popup invokes
handleFinished, which always clears the notification; it appends exactly
one history record when a current task exists and none otherwise; when no
current task exists (now at or past endTime + 20 minutes) the tasks and
history are untouched and the block stays unresolved; when a current task
exists every stored copy of it is set to completed. -/
theorem c10_amended :
    (∀ now st, (handleFinished now st).notification =
      { isActive := false, currentTaskId := none }) ∧
    (∀ now st, (handleFinished now st).history.length =
      st.history.length + (if (currentTask st.tasks now).isSome then 1 else 0)) ∧
    (∀ now st, currentTask st.tasks now = none →
      (handleFinished now st).tasks = st.tasks ∧
      (handleFinished now st).history = st.history) ∧
    (∀ now st t, currentTask st.tasks now = some t →
      ((handleFinished now st).tasks.filter (fun x => x.id == t.id)).map
          (fun x => x.status) =
        (st.tasks.filter (fun x => x.id == t.id)).map (fun _ => "completed")) := by
  refine ⟨?_, ?_, ?_, ?_⟩
  · intro now st
    cases hct : currentTask st.tasks now with
    | none => simp [handleFinished, hct]
    | some t => simp [handleFinished, hct, updateTaskStatus, logActivityToHistory]
  · intro now st
    cases hct : currentTask st.tasks now with
    | none => simp [handleFinished, hct]
    | some t =>
      simp [handleFinished, hct, updateTaskStatus, logActivityToHistory]
  · intro now st hct
    simp [handleFinished, hct]
  · intro now st t hct
    simp only [handleFinished, hct]
    exact updStatus_filter st.tasks t.id "completed"

/-- C10, witness: the no-current-task dismissal at 10:20:00 leaves tasks
and history untouched. -/
theorem c10_amended_witness :
    ((handleFinished 37200 stateNotifActive).tasks = stateNotifActive.tasks ∧
      (handleFinished 37200 stateNotifActive).history = stateNotifActive.history) ∧
    (((handleFinished 36500 statePending).tasks.filter
        (fun x => x.id == workTaskPending.id)).map (fun x => x.status) =
      (statePending.tasks.filter (fun x => x.id == workTaskPending.id)).map
        (fun _ => "completed")) :=
  ⟨c10_amended.2.2.1 37200 stateNotifActive (by decide),
   c10_amended.2.2.2 36500 statePending workTaskPending (by decide)⟩
